import Mathlib

/-!
Verification of the pmxt Python SDK core: the local market filter/match engine
(`pmxt/models.py`, `pmxt/client.py`) and the sidecar server supervisor
(`pmxt/server_manager.py`), shallowly embedded in Lean.

Python floats are modelled as `Rat` (only order comparisons occur), Python
`datetime` values as `Int` timestamps (only order comparisons occur), and JSON
values by an explicit `Json` inductive.  Stateful supervisor operations are
modelled as explicit state-passing functions over an `SMState` record; Python
exceptions that escape a function are modelled with `Except String`.
-/

/-- JSON values as produced by Python's `json.loads` (which distinguishes
`int` from `float`).  Used for lock-file contents and outcome metadata. -/
inductive Json where
  | null
  | bool (b : Bool)
  | int (n : Int)
  | float (q : Rat)
  | str (s : String)
  | arr (elems : List Json)
  | obj (fields : List (String × Json))

/-- Executable prefix test on character lists (Python string matching helper). -/
def listPre : List Char → List Char → Bool
  | [], _ => true
  | _ :: _, [] => false
  | a :: as, b :: bs => a == b && listPre as bs

/-- Executable infix (substring) test on character lists. -/
def listInf (n : List Char) : List Char → Bool
  | [] => listPre n []
  | b :: bs => listPre n (b :: bs) || listInf n bs

/-- Python's `sub in s` substring operator. -/
def pyIn (sub s : String) : Bool := listInf sub.toList s.toList

/-- Python's `str.lower()` (ASCII case folding, which is all the engine's
comparisons rely on), written over the character list so that it evaluates by
kernel reduction. -/
def pyLower (s : String) : String := String.mk (s.toList.map Char.toLower)

/-- Python's `"sep".join(parts)`. -/
def pyJoin (sep : String) : List String → String
  | [] => ""
  | [x] => x
  | x :: y :: rest => x ++ sep ++ pyJoin sep (y :: rest)

/-- The searchable fields of the filter/match engine: the Python literal type
`Literal["title", "description", "category", "tags", "outcomes"]`. -/
inductive MatchField where
  | title
  | description
  | category
  | tags
  | outcomes
deriving DecidableEq

/-- `OutcomeType = Literal["yes", "no", "up", "down"]` (models.py). -/
inductive OutcomeType where
  | yes
  | no
  | up
  | down
deriving DecidableEq

/-- `MarketOutcome` dataclass (models.py). -/
structure MarketOutcome where
  outcome_id : String
  label : String
  price : Rat
  price_change_24h : Option Rat
  metadata : Option (List (String × Json))
  market_id : Option String

/-- `UnifiedMarket` dataclass (models.py).  `resolution_date` is a timestamp. -/
structure UnifiedMarket where
  market_id : String
  title : String
  outcomes : List MarketOutcome
  volume_24h : Rat
  liquidity : Rat
  url : String
  description : Option String
  resolution_date : Option Int
  volume : Option Rat
  open_interest : Option Rat
  image : Option String
  category : Option String
  tags : Option (List String)
  yes : Option MarketOutcome
  no : Option MarketOutcome
  up : Option MarketOutcome
  down : Option MarketOutcome

/-- One field test of `MarketList.match` / the text constraint of
`Exchange.filter_markets`: the Python conditions
`m.title and lower_query in m.title.lower()` (and their analogues for
description / category / tags / outcomes), including Python truthiness of the
field value (empty string / `None` / empty list are falsy). -/
def fieldMatches (m : UnifiedMarket) (query : String) : MatchField → Bool
  | .title => decide (m.title ≠ "") && pyIn (pyLower query) (pyLower m.title)
  | .description =>
    match m.description with
    | none => false
    | some d => decide (d ≠ "") && pyIn (pyLower query) (pyLower d)
  | .category =>
    match m.category with
    | none => false
    | some c => decide (c ≠ "") && pyIn (pyLower query) (pyLower c)
  | .tags =>
    match m.tags with
    | none => false
    | some ts => !ts.isEmpty && ts.any (fun t => pyIn (pyLower query) (pyLower t))
  | .outcomes =>
    !m.outcomes.isEmpty && m.outcomes.any (fun o => pyIn (pyLower query) (pyLower o.label))

/-- The `for field in search_in` loop body of `MarketList.match`: the record is
collected iff some requested field matches (the `break` only prevents double
counting). -/
def scanFields (search_in : List MatchField) (query : String) (m : UnifiedMarket) : Bool :=
  search_in.any (fieldMatches m query)

/-- `m.title[:70]` plus `'...' if len(m.title) > 70 else ''` (models.py:153). -/
def truncTitle (t : String) : String :=
  String.mk (t.toList.take 70) ++ (if t.length > 70 then "..." else "")

/-- The enumerated lines `f"{i+1}. {m.title[:70]}..."` of the Ambiguous
message, starting at index `i` (Python `enumerate(matches)` starts at 0). -/
def ambParts : Nat → List UnifiedMarket → List String
  | _, [] => []
  | i, m :: rest => (toString (i + 1) ++ ". " ++ truncTitle m.title) :: ambParts (i + 1) rest

/-- Message of the `ValueError` raised on zero matches (models.py:150). -/
def notFoundMsg (query : String) : String :=
  "No markets matching '" ++ query ++ "'"

/-- Message of the `ValueError` raised on multiple matches (models.py:152-158). -/
def ambiguousMsg (query : String) (ms : List UnifiedMarket) : String :=
  "Multiple markets matching '" ++ query ++ "' (" ++ toString ms.length ++
    " matches):\n  " ++ pyJoin "\n  " (ambParts 0 ms) ++
    "\n\nPlease refine your search."

/-- Result of `MarketList.match`: the returned market, or the raised
`ValueError` (distinguished by which branch raised it). -/
inductive MatchResult where
  | found (m : UnifiedMarket)
  | notFound (msg : String)
  | ambiguous (msg : String)

/-- `MarketList.match` (models.py:111-159).  `search_in = none` models the
Python default argument `None`, replaced by `["title"]`. -/
def marketMatch (self : List UnifiedMarket) (query : String)
    (search_in : Option (List MatchField)) : MatchResult :=
  let fields := search_in.getD [MatchField.title]
  let found := self.filter (scanFields fields query)
  match found with
  | [] => .notFound (notFoundMsg query)
  | [m] => .found m
  | _ :: _ :: _ => .ambiguous (ambiguousMsg query found)

/-- `MinMax` TypedDict (models.py): both keys optional. -/
structure MinMax where
  min : Option Rat
  max : Option Rat

/-- `DateRange` TypedDict (models.py): both keys optional. -/
structure DateRange where
  before : Option Int
  after : Option Int

/-- `PriceFilter` TypedDict (models.py): all keys optional. -/
structure PriceFilter where
  outcome : Option OutcomeType
  min : Option Rat
  max : Option Rat

/-- `MarketFilterCriteria` TypedDict (models.py, `total=False`): every key
optional, absence modelled by `none`. -/
structure MarketFilterCriteria where
  text : Option String
  search_in : Option (List MatchField)
  volume_24h : Option MinMax
  volume : Option MinMax
  liquidity : Option MinMax
  open_interest : Option MinMax
  resolution_date : Option DateRange
  category : Option String
  tags : Option (List String)
  price : Option PriceFilter
  price_change_24h : Option PriceFilter

/-- The text-search block of `Exchange.filter_markets` (client.py:746-763):
an `elif` chain over the requested scopes, i.e. a disjunction. -/
def textMatchFilter (search_in : List MatchField) (query : String) (m : UnifiedMarket) : Bool :=
  (search_in.contains .title && fieldMatches m query .title) ||
  (search_in.contains .description && fieldMatches m query .description) ||
  (search_in.contains .category && fieldMatches m query .category) ||
  (search_in.contains .tags && fieldMatches m query .tags) ||
  (search_in.contains .outcomes && fieldMatches m query .outcomes)

/-- Text constraint: skipped when `"text" not in params`; scope defaults to
`["title"]` (client.py:746-763). -/
def textClause (t : Option String) (si : Option (List MatchField)) (m : UnifiedMarket) : Bool :=
  match t with
  | none => true
  | some q => textMatchFilter (si.getD [MatchField.title]) q m

/-- Category constraint (client.py:766-768): rejects unless the record's
category equals the requested one (`None != "c"` is true in Python). -/
def categoryClause (c : Option String) (m : UnifiedMarket) : Bool :=
  match c with
  | none => true
  | some cat => decide (m.category = some cat)

/-- Tags constraint (client.py:771-777): skipped when absent or the requested
list is empty (Python truthiness of `params["tags"]`); rejects when the record
has no tags; otherwise match-ANY case-insensitively. -/
def tagsClause (qt : Option (List String)) (m : UnifiedMarket) : Bool :=
  match qt with
  | none => true
  | some ts =>
    if ts = [] then true
    else
      match m.tags with
      | none => false
      | some mts =>
        if mts = [] then false
        else (ts.map pyLower).any (fun t => (mts.map pyLower).contains t)

/-- One numeric range constraint (client.py:779-805): reject if `val < min` or
`val > max`. -/
def minMaxClause (f : Option MinMax) (v : Rat) : Bool :=
  match f with
  | none => true
  | some r => !(r.min.any fun mn => decide (v < mn)) && !(r.max.any fun mx => decide (v > mx))

/-- Resolution-date constraint (client.py:807-818): a record with no
resolution date is rejected; otherwise reject if `val >= before` or
`val <= after`. -/
def dateClause (f : Option DateRange) (d : Option Int) : Bool :=
  match f with
  | none => true
  | some r =>
    match d with
    | none => false
    | some v => !(r.before.any fun b => decide (v ≥ b)) && !(r.after.any fun a => decide (v ≤ a))

/-- `getattr(market, outcome_key)` for the four named outcome references. -/
def outcomeRef (m : UnifiedMarket) : OutcomeType → Option MarketOutcome
  | .yes => m.yes
  | .no => m.no
  | .up => m.up
  | .down => m.down

/-- Price constraint (client.py:821-828): skipped entirely when the criteria
carry no outcome selector; rejects when the selected outcome is absent. -/
def priceClause (f : Option PriceFilter) (m : UnifiedMarket) : Bool :=
  match f with
  | none => true
  | some pf =>
    match pf.outcome with
    | none => true
    | some k =>
      match outcomeRef m k with
      | none => false
      | some o =>
        !(pf.min.any fun mn => decide (o.price < mn)) &&
          !(pf.max.any fun mx => decide (o.price > mx))

/-- 24h-price-change constraint (client.py:831-838): like `priceClause`, and
additionally rejects when the selected outcome has no recorded change. -/
def priceChangeClause (f : Option PriceFilter) (m : UnifiedMarket) : Bool :=
  match f with
  | none => true
  | some pf =>
    match pf.outcome with
    | none => true
    | some k =>
      match outcomeRef m k with
      | none => false
      | some o =>
        match o.price_change_24h with
        | none => false
        | some pc =>
          !(pf.min.any fun mn => decide (pc < mn)) &&
            !(pf.max.any fun mx => decide (pc > mx))

/-- The per-record body of the structured-criteria loop of
`Exchange.filter_markets` (client.py:744-840): a conjunction of the
constraint blocks in source order; `&&` short-circuits exactly like the
`continue` statements. -/
def marketPasses (c : MarketFilterCriteria) (m : UnifiedMarket) : Bool :=
  textClause c.text c.search_in m &&
  categoryClause c.category m &&
  tagsClause c.tags m &&
  minMaxClause c.volume_24h m.volume_24h &&
  minMaxClause c.volume (m.volume.getD 0) &&
  minMaxClause c.liquidity m.liquidity &&
  minMaxClause c.open_interest (m.open_interest.getD 0) &&
  dateClause c.resolution_date m.resolution_date &&
  priceClause c.price m &&
  priceChangeClause c.price_change_24h m

/-- The closed three-variant criteria union accepted by
`Exchange.filter_markets`. -/
inductive FilterCriteria where
  | str (s : String)
  | struct (c : MarketFilterCriteria)
  | pred (f : UnifiedMarket → Bool)

/-- `Exchange.filter_markets` (client.py:711-842). -/
def filterMarkets (markets : List UnifiedMarket) : FilterCriteria → List UnifiedMarket
  | .pred f => markets.filter f
  | .str s => markets.filter (fun m => decide (m.title ≠ "") && pyIn (pyLower s) (pyLower m.title))
  | .struct c => markets.filter (marketPasses c)

/-- First-present merge: the value the key has in `a ∪ b` when at most one of
the two criteria sets carries it. -/
def mergeOpt {α : Type} (x y : Option α) : Option α :=
  match x with
  | some v => some v
  | none => y

/-- Key-wise union of two structured criteria sets. -/
def unionCrit (a b : MarketFilterCriteria) : MarketFilterCriteria :=
  ⟨mergeOpt a.text b.text,
   mergeOpt a.search_in b.search_in,
   mergeOpt a.volume_24h b.volume_24h,
   mergeOpt a.volume b.volume,
   mergeOpt a.liquidity b.liquidity,
   mergeOpt a.open_interest b.open_interest,
   mergeOpt a.resolution_date b.resolution_date,
   mergeOpt a.category b.category,
   mergeOpt a.tags b.tags,
   mergeOpt a.price b.price,
   mergeOpt a.price_change_24h b.price_change_24h⟩

/-- Two optional keys are disjoint when at most one is present. -/
def optDisj {α : Type} (x y : Option α) : Prop := x = none ∨ y = none

/-- The two criteria sets have disjoint constraint keys (each of the eleven
`MarketFilterCriteria` keys is present in at most one of them). -/
def DisjointCrit (a b : MarketFilterCriteria) : Prop :=
  optDisj a.text b.text ∧
  optDisj a.search_in b.search_in ∧
  optDisj a.volume_24h b.volume_24h ∧
  optDisj a.volume b.volume ∧
  optDisj a.liquidity b.liquidity ∧
  optDisj a.open_interest b.open_interest ∧
  optDisj a.resolution_date b.resolution_date ∧
  optDisj a.category b.category ∧
  optDisj a.tags b.tags ∧
  optDisj a.price b.price ∧
  optDisj a.price_change_24h b.price_change_24h

/-- A criteria set carries a `search_in` scope only together with the `text`
constraint it scopes. -/
def ScopeOk (a : MarketFilterCriteria) : Prop :=
  a.search_in ≠ none → a.text ≠ none

/-!  ## Sidecar supervisor (`pmxt/server_manager.py`)

The world visible to a `ServerManager` is modelled explicitly: the lock file
(absent / unreadable-or-unparsable / parsed JSON), the process table, and the
health endpoint's verdict per queried port value.  `_check_health` already
catches every exception and returns a bool, so it is modelled as a function.
-/

/-- Supervisor-visible world state.  `lock = none`: no lock file;
`lock = some none`: the file exists but reading or JSON-parsing it fails
(`OSError` / `json.JSONDecodeError`); `lock = some (some j)`: it parses to
`j`.  `procAlive` is the `os.kill(pid, 0)` probe; `health p` is the result of
`_check_health` for port value `p`. -/
structure SMState where
  lock : Option (Option Json)
  procAlive : Int → Bool
  health : Json → Bool

/-- Python truthiness of a JSON value. -/
def pyTruthy : Json → Bool
  | .null => false
  | .bool b => b
  | .int n => decide (n ≠ 0)
  | .float q => decide (q ≠ 0)
  | .str s => decide (s ≠ "")
  | .arr xs => !xs.isEmpty
  | .obj kvs => !kvs.isEmpty

/-- `dict.get(key)` on a parsed JSON object (no default: absent gives None). -/
def jsonLookup (kvs : List (String × Json)) (k : String) : Option Json :=
  (kvs.find? (fun p => p.1 == k)).map (fun p => p.2)

/-- The pid values `os.kill(pid, 0)` accepts: Python ints (JSON ints, and
bools, which are ints in Python); anything else raises `TypeError`. -/
def pidToInt : Json → Option Int
  | .int n => some n
  | .bool b => some (if b then 1 else 0)
  | _ => none

/-- `ServerManager.is_server_alive` (server_manager.py:82-121).  Returns the
bool together with the possibly-updated world (stale-lock removal); a raised
exception that no handler catches (`AttributeError` when the parsed lock JSON
is not an object, `TypeError` when the pid is not an int) is `.error`. -/
def is_server_alive (s : SMState) : Except String (Bool × SMState) :=
  match s.lock with
  | none => .ok (false, s)
  | some none => .ok (false, s)
  | some (some lockJson) =>
    match lockJson with
    | .obj kvs =>
      let pid := (jsonLookup kvs "pid").getD .null
      let port := (jsonLookup kvs "port").getD (.int 3847)
      if pyTruthy pid then
        match pidToInt pid with
        | none => .error "TypeError: os.kill"
        | some p =>
          if s.procAlive p then .ok (s.health port, s)
          else .ok (false, { s with lock := none })
      else .ok (false, s)
    | _ => .error "AttributeError: lock_data.get"

/-- What the external launcher run would do: whether the executable was
found (dev path or PATH), whether `subprocess.run` times out, and otherwise
its exit code and captured output. -/
structure LauncherSpec where
  found : Bool
  timedOut : Bool
  returncode : Int
  stdoutText : String
  stderrText : String

/-- `ServerManager._start_server_via_launcher` (server_manager.py:143-182).
On a non-zero exit the inner `raise Exception(f"Failed to start server:
{result.stderr or result.stdout}")` is itself caught by the trailing
`except Exception as e` and re-wrapped, so the surfaced message carries the
prefix twice; `result.stderr or result.stdout` picks stderr when non-empty,
else stdout. -/
def startServerViaLauncher (L : LauncherSpec) : Except String Unit :=
  if !L.found then
    .error ("pmxt-ensure-server not found.\nLocal search failed and not in PATH.\n" ++
      "Please install the server: npm install -g pmxtjs")
  else if L.timedOut then .error "Server startup timeout"
  else if L.returncode ≠ 0 then
    .error ("Failed to start server: " ++ "Failed to start server: " ++
      (if L.stderrText ≠ "" then L.stderrText else L.stdoutText))
  else .ok ()

/-- The poll loop of `_wait_for_health` (server_manager.py:184-203): poll `i`
is the `_check_health(self._port)` verdict at iteration `i`; `fuel` is the
number of iterations the 10-second budget admits.  Returns the index of the
first successful poll. -/
def waitForHealthAux (poll : Nat → Bool) : Nat → Nat → Option Nat
  | _, 0 => none
  | i, Nat.succ f => if poll i then some i else waitForHealthAux poll (i + 1) f

/-- Observable outcome of `ensure_server_running`: final world, number of
launcher invocations, number of health-poll-loop iterations executed. -/
structure EnsureOutcome where
  state : SMState
  launches : Nat
  polls : Nat

/-- `ServerManager.ensure_server_running` (server_manager.py:59-81):
alive check, then launcher, then health-poll loop. -/
def ensureServerRunning (s : SMState) (L : LauncherSpec) (poll : Nat → Bool)
    (fuel : Nat) : Except String EnsureOutcome :=
  match is_server_alive s with
  | .error e => .error e
  | .ok (true, s1) => .ok ⟨s1, 0, 0⟩
  | .ok (false, s1) =>
    match startServerViaLauncher L with
    | .error e => .error e
    | .ok _ =>
      match waitForHealthAux poll 0 fuel with
      | some i => .ok ⟨s1, 1, i + 1⟩
      | none => .error "Server failed to become healthy within 10s"

/-- `ServerManager.get_server_info` (server_manager.py:229-242), with the
(unchanged) world returned to express that it is read-only. -/
def get_server_info (s : SMState) : Option Json × SMState :=
  match s.lock with
  | none => (none, s)
  | some none => (none, s)
  | some (some j) => (some j, s)

/-- Modelled from the spec: `get_running_port` is called by
`Exchange.__init__` (client.py:260) but its definition is absent from the
Python sources in this repository.  Per the spec it is a read-only accessor
over the parsed lock file that returns nothing when no lock file exists or it
is malformed, and otherwise the bound port recorded in the lock file (the
default port serving as fallback when the field is absent). -/
def get_running_port (s : SMState) : Option Json × SMState :=
  match s.lock with
  | none => (none, s)
  | some none => (none, s)
  | some (some (.obj kvs)) => (some ((jsonLookup kvs "port").getD (.int 3847)), s)
  | some (some _) => (none, s)

/-!  ## Concrete fixtures (spec §8 scenarios) -/

/-- A market with the given title and 24h volume and no other data, as in the
spec's scenario records. -/
def mkMarket (title : String) (vol : Rat) : UnifiedMarket :=
  ⟨"id-" ++ title, title, [], vol, 0, "", none, none, none, none, none, none, none,
   none, none, none, none⟩

/-- `{title:"Will Trump win?", volume_24h:50000}`. -/
def trumpMarket : UnifiedMarket := mkMarket "Will Trump win?" 50000

/-- `{title:"Bitcoin $100k?", volume_24h:75000}`. -/
def bitcoinMarket : UnifiedMarket := mkMarket "Bitcoin $100k?" 75000

/-- `{title:"Biden reelect?", volume_24h:30000}`. -/
def bidenMarket : UnifiedMarket := mkMarket "Biden reelect?" 30000

/-- The spec §8 scenario record set. -/
def scenarioMarkets : List UnifiedMarket := [trumpMarket, bitcoinMarket, bidenMarket]

/-- The scenario filter `{volume_24h: {min: 40000}}`. -/
def volMinCrit : MarketFilterCriteria :=
  ⟨none, none, some ⟨some 40000, none⟩, none, none, none, none, none, none, none, none⟩

/-!  ## Helper lemmas -/

theorem listPre_iff (n l : List Char) : listPre n l = true ↔ n <+: l := by
  induction n generalizing l with
  | nil => simp [listPre]
  | cons a as ih =>
    cases l with
    | nil => simp [listPre]
    | cons b bs =>
      rw [show listPre (a :: as) (b :: bs) = (a == b && listPre as bs) from rfl]
      simp only [Bool.and_eq_true, beq_iff_eq, ih, List.cons_prefix_cons]

theorem listInf_iff (n l : List Char) : listInf n l = true ↔ n <:+: l := by
  induction l with
  | nil =>
    rw [show listInf n [] = listPre n [] from rfl, listPre_iff]
    simp
  | cons b bs ih =>
    rw [show listInf n (b :: bs) = (listPre n (b :: bs) || listInf n bs) from rfl]
    simp only [Bool.or_eq_true, listPre_iff, ih, List.infix_cons_iff]

theorem pyIn_iff (sub s : String) : pyIn sub s = true ↔ sub.toList <:+: s.toList := by
  rw [pyIn, listInf_iff]

theorem strToList_append (a b : String) : (a ++ b).toList = a.toList ++ b.toList := rfl

theorem mem_pyJoin_substring (sep : String) (l : List String) (x : String) (hx : x ∈ l) :
    x.toList <:+: (pyJoin sep l).toList := by
  induction l with
  | nil => cases hx
  | cons y ys ih =>
    cases ys with
    | nil =>
      rcases List.mem_singleton.mp hx with rfl
      exact List.infix_rfl
    | cons z zs =>
      rcases List.mem_cons.mp hx with rfl | hx2
      · show x.toList <:+: (x ++ sep ++ pyJoin sep (z :: zs)).toList
        rw [strToList_append, strToList_append]
        exact ((List.prefix_append _ _).trans (List.prefix_append _ _)).isInfix
      · show x.toList <:+: (y ++ sep ++ pyJoin sep (z :: zs)).toList
        rw [strToList_append]
        exact (ih hx2).trans (List.suffix_append _ _).isInfix

theorem infix_append_left (x p t : List Char) (h : x <:+: t) : x <:+: p ++ t :=
  h.trans (List.suffix_append p t).isInfix

theorem pyIn_notFoundMsg (q : String) : pyIn q (notFoundMsg q) = true := by
  rw [pyIn_iff, notFoundMsg]
  simp only [strToList_append, List.append_assoc]
  exact List.infix_append' _ _ _

theorem ambParts_mem (ms : List UnifiedMarket) (m : UnifiedMarket) (hm : m ∈ ms) (i : Nat) :
    ∃ s ∈ ambParts i ms, (truncTitle m.title).toList <:+: s.toList := by
  induction ms generalizing i with
  | nil => cases hm
  | cons y ys ih =>
    rcases List.mem_cons.mp hm with rfl | h2
    · refine ⟨toString (i + 1) ++ ". " ++ truncTitle m.title, List.mem_cons_self _ _, ?_⟩
      rw [strToList_append]
      exact (List.suffix_append _ _).isInfix
    · obtain ⟨s, hs, hinf⟩ := ih h2 (i + 1)
      exact ⟨s, List.mem_cons_of_mem _ hs, hinf⟩

theorem truncTitle_in_ambiguousMsg (q : String) (ms : List UnifiedMarket) (m : UnifiedMarket)
    (hm : m ∈ ms) : pyIn (truncTitle m.title) (ambiguousMsg q ms) = true := by
  rw [pyIn_iff]
  obtain ⟨s, hs, hinf⟩ := ambParts_mem ms m hm 0
  refine hinf.trans ((mem_pyJoin_substring "\n  " (ambParts 0 ms) s hs).trans ?_)
  rw [ambiguousMsg]
  simp only [strToList_append, List.append_assoc]
  refine infix_append_left _ _ _ (infix_append_left _ _ _ (infix_append_left _ _ _
    (infix_append_left _ _ _ (infix_append_left _ _ _ ?_))))
  exact (List.prefix_append _ _).isInfix

/-!  ## Claims -/

/-- C1.  For every record list and query (search fields defaulting to title
only), `MarketList.match` returns the unique matching record when exactly one
record matches; on zero matches it raises NotFound with the query embedded in
the message; on two or more matches it raises Ambiguous with a message listing
every matching record's title truncated to 70 characters. -/
theorem match_totality (R : List UnifiedMarket) (q : String) :
    (∀ m, R.filter (scanFields [MatchField.title] q) = [m] →
      marketMatch R q none = .found m) ∧
    (R.filter (scanFields [MatchField.title] q) = [] →
      marketMatch R q none = .notFound (notFoundMsg q) ∧
        pyIn q (notFoundMsg q) = true) ∧
    (∀ m1 m2 rest, R.filter (scanFields [MatchField.title] q) = m1 :: m2 :: rest →
      marketMatch R q none = .ambiguous (ambiguousMsg q (m1 :: m2 :: rest)) ∧
        ∀ m ∈ m1 :: m2 :: rest,
          pyIn (truncTitle m.title) (ambiguousMsg q (m1 :: m2 :: rest)) = true) := by
  refine ⟨?_, ?_, ?_⟩
  · intro m h
    simp only [marketMatch, Option.getD]
    rw [h]
  · intro h
    refine ⟨?_, pyIn_notFoundMsg q⟩
    simp only [marketMatch, Option.getD]
    rw [h]
  · intro m1 m2 rest h
    constructor
    · simp only [marketMatch, Option.getD]
      rw [h]
    · intro m hm
      exact truncTitle_in_ambiguousMsg q _ m hm

/-- Witness for C1: the spec §8 scenario records, with a uniquely matching,
a zero-match and a multi-match query. -/
theorem match_totality_witness :
    marketMatch scenarioMarkets "Trump" none = .found trumpMarket ∧
    marketMatch scenarioMarkets "zzz" none = .notFound (notFoundMsg "zzz") ∧
    marketMatch scenarioMarkets "i" none =
      .ambiguous (ambiguousMsg "i" [trumpMarket, bitcoinMarket, bidenMarket]) :=
  ⟨(match_totality scenarioMarkets "Trump").1 trumpMarket rfl,
   ((match_totality scenarioMarkets "zzz").2.1 rfl).1,
   ((match_totality scenarioMarkets "i").2.2 trumpMarket bitcoinMarket [bidenMarket] rfl).1⟩

/-- C2.  Filtering with a freeform string equals filtering with the structured
criteria `{text: s, search_in: ["title"]}`, record for record. -/
theorem string_filter_equiv (R : List UnifiedMarket) (s : String) :
    filterMarkets R (.str s) =
      filterMarkets R
        (.struct ⟨some s, some [MatchField.title],
          none, none, none, none, none, none, none, none, none⟩) := by
  simp only [filterMarkets]
  refine List.filter_congr (fun m _ => ?_)
  simp [marketPasses, textClause, textMatchFilter, categoryClause, tagsClause,
    minMaxClause, dateClause, priceClause, priceChangeClause, fieldMatches]

/-- A range constraint with no bounds passes every value. -/
theorem minMaxClause_none (v : Rat) : minMaxClause none v = true := rfl

/-- C4.  A numeric range constraint (here `volume_24h`, the scenario's field)
rejects a record exactly when the field value is strictly below the `min`
bound or strictly above the `max` bound (both inclusive); and the spec §8
scenario filter `{volume_24h: {min: 40000}}` on the three scenario records
returns exactly the Trump and Bitcoin records in input order. -/
theorem range_filter_semantics :
    (∀ (f : MinMax) (m : UnifiedMarket),
      marketPasses
          ⟨none, none, some f, none, none, none, none, none, none, none, none⟩ m = false ↔
        ((∃ mn, f.min = some mn ∧ m.volume_24h < mn) ∨
          (∃ mx, f.max = some mx ∧ m.volume_24h > mx))) ∧
    filterMarkets scenarioMarkets (.struct volMinCrit) = [trumpMarket, bitcoinMarket] := by
  constructor
  · intro f m
    obtain ⟨mn, mx⟩ := f
    have hred : marketPasses
        ⟨none, none, some ⟨mn, mx⟩, none, none, none, none, none, none, none, none⟩ m =
        minMaxClause (some ⟨mn, mx⟩) m.volume_24h := by
      simp [marketPasses, textClause, categoryClause, tagsClause, dateClause,
        priceClause, priceChangeClause, minMaxClause_none]
    rw [hred]
    simp only [minMaxClause, Bool.and_eq_false_iff, Bool.not_eq_false']
    cases mn <;> cases mx <;> simp
  · rfl

/-- C10.  A structured criteria containing a `resolution_date` range constraint
excludes every record whose resolution date is absent from the filtered
result. -/
theorem date_absent_rejected (R : List UnifiedMarket) (c : MarketFilterCriteria)
    (dr : DateRange) (m : UnifiedMarket) (hc : c.resolution_date = some dr)
    (hm : m.resolution_date = none) : m ∉ filterMarkets R (.struct c) := by
  intro hmem
  simp only [filterMarkets] at hmem
  have hpass := (List.mem_filter.mp hmem).2
  rw [marketPasses, hc, hm] at hpass
  simp [dateClause] at hpass

/-- Witness for C10: a record without a resolution date is dropped by a
criteria set carrying a date range. -/
theorem date_absent_rejected_witness :
    mkMarket "No Date" 0 ∉
      filterMarkets [mkMarket "No Date" 0]
        (.struct ⟨none, none, none, none, none, none, some ⟨some 100, none⟩,
          none, none, none, none⟩) :=
  date_absent_rejected [mkMarket "No Date" 0] _ ⟨some 100, none⟩ _ rfl rfl

theorem mergeOpt_clause {α : Type} (g : Option α → Bool) (hg : g none = true)
    (x y : Option α) (h : optDisj x y) : g (mergeOpt x y) = (g x && g y) := by
  cases x with
  | none => simp [mergeOpt, hg]
  | some v =>
    have hy : y = none := h.resolve_left (by simp)
    subst hy
    simp [mergeOpt, hg]

theorem textClause_merge (a b : MarketFilterCriteria) (m : UnifiedMarket)
    (hdt : optDisj a.text b.text) (_hds : optDisj a.search_in b.search_in)
    (hsa : ScopeOk a) (hsb : ScopeOk b) :
    textClause (mergeOpt a.text b.text) (mergeOpt a.search_in b.search_in) m =
      (textClause a.text a.search_in m && textClause b.text b.search_in m) := by
  cases hat : a.text with
  | some q =>
    have hbt : b.text = none := hdt.resolve_left (by simp [hat])
    have hbs : b.search_in = none := by
      by_contra hne
      exact (hsb hne) hbt
    have hms : mergeOpt a.search_in b.search_in = a.search_in := by
      cases a.search_in <;> simp [mergeOpt, hbs]
    rw [hms]
    simp [mergeOpt, hat, hbt, textClause]
  | none =>
    have has : a.search_in = none := by
      by_contra hne
      exact (hsa hne) hat
    simp [mergeOpt, hat, has, textClause]

theorem marketPasses_union (a b : MarketFilterCriteria) (m : UnifiedMarket)
    (hd : DisjointCrit a b) (hsa : ScopeOk a) (hsb : ScopeOk b) :
    marketPasses (unionCrit a b) m = (marketPasses a m && marketPasses b m) := by
  obtain ⟨h1, h2, h3, h4, h5, h6, h7, h8, h9, h10, h11⟩ := hd
  apply Bool.eq_iff_iff.mpr
  simp only [marketPasses, unionCrit]
  rw [textClause_merge a b m h1 h2 hsa hsb,
    mergeOpt_clause (fun o => minMaxClause o m.volume_24h) rfl _ _ h3,
    mergeOpt_clause (fun o => minMaxClause o (m.volume.getD 0)) rfl _ _ h4,
    mergeOpt_clause (fun o => minMaxClause o m.liquidity) rfl _ _ h5,
    mergeOpt_clause (fun o => minMaxClause o (m.open_interest.getD 0)) rfl _ _ h6,
    mergeOpt_clause (fun o => dateClause o m.resolution_date) rfl _ _ h7,
    mergeOpt_clause (fun o => categoryClause o m) rfl _ _ h8,
    mergeOpt_clause (fun o => tagsClause o m) rfl _ _ h9,
    mergeOpt_clause (fun o => priceClause o m) rfl _ _ h10,
    mergeOpt_clause (fun o => priceChangeClause o m) rfl _ _ h11]
  simp only [Bool.and_eq_true]
  tauto

/-- A record matched by description but not by title, refuting the claim C3 as
stated when the `search_in` key is separated from its `text` key. -/
def descOnlyMarket : UnifiedMarket :=
  ⟨"id-alpha", "Alpha", [], 0, 0, "", some "the bravo market", none, none, none,
   none, none, none, none, none, none, none⟩

/-- `{text: "bravo"}` alone. -/
def textOnlyCrit : MarketFilterCriteria :=
  ⟨some "bravo", none, none, none, none, none, none, none, none, none, none⟩

/-- `{search_in: ["description"]}` alone. -/
def scopeOnlyCrit : MarketFilterCriteria :=
  ⟨none, some [MatchField.description], none, none, none, none, none, none, none,
   none, none⟩

/-- Counterexample to C3 as stated: `{text: "bravo"}` and
`{search_in: ["description"]}` have disjoint constraint keys, yet filtering
with their union (which searches the description) keeps the record that
filtering first with the text constraint alone (title scope by default)
discards. -/
theorem filter_conjunction_cex :
    DisjointCrit textOnlyCrit scopeOnlyCrit ∧
    filterMarkets [descOnlyMarket] (.struct (unionCrit textOnlyCrit scopeOnlyCrit)) ≠
      filterMarkets (filterMarkets [descOnlyMarket] (.struct textOnlyCrit))
        (.struct scopeOnlyCrit) := by
  constructor
  · exact ⟨Or.inr rfl, Or.inl rfl, Or.inl rfl, Or.inl rfl, Or.inl rfl, Or.inl rfl,
      Or.inl rfl, Or.inl rfl, Or.inl rfl, Or.inl rfl, Or.inl rfl⟩
  · intro h
    have h2 : ([descOnlyMarket] : List UnifiedMarket) = [] := h
    exact List.cons_ne_nil _ _ h2

/-- C3 (amended).  For criteria sets with disjoint constraint keys, provided
each set carries a `search_in` scope only together with its `text` constraint,
filtering with the key-wise union equals filtering with one set and then the
other: constraints compose as intersection, record by record. -/
theorem filter_conjunction (R : List UnifiedMarket) (a b : MarketFilterCriteria)
    (hd : DisjointCrit a b) (hsa : ScopeOk a) (hsb : ScopeOk b) :
    filterMarkets R (.struct (unionCrit a b)) =
      filterMarkets (filterMarkets R (.struct a)) (.struct b) := by
  simp only [filterMarkets]
  rw [List.filter_filter]
  refine List.filter_congr (fun m _ => ?_)
  rw [marketPasses_union a b m hd hsa hsb, Bool.and_comm]

/-- Witness for C3 (amended): splitting the scenario volume constraint from a
text constraint across the two sets. -/
theorem filter_conjunction_witness :
    filterMarkets scenarioMarkets
        (.struct (unionCrit
          ⟨some "i", some [MatchField.title], none, none, none, none, none, none,
            none, none, none⟩ volMinCrit)) =
      filterMarkets
        (filterMarkets scenarioMarkets
          (.struct ⟨some "i", some [MatchField.title], none, none, none, none, none,
            none, none, none, none⟩))
        (.struct volMinCrit) :=
  filter_conjunction scenarioMarkets _ volMinCrit
    ⟨Or.inr rfl, Or.inr rfl, Or.inl rfl, Or.inl rfl, Or.inl rfl, Or.inl rfl,
      Or.inl rfl, Or.inl rfl, Or.inl rfl, Or.inl rfl, Or.inl rfl⟩
    (fun _ => by simp) (fun h => absurd rfl h)

/-- If `is_server_alive` reports true, the world was not modified. -/
theorem alive_true_state (s s1 : SMState) (h : is_server_alive s = .ok (true, s1)) :
    s1 = s := by
  unfold is_server_alive at h
  repeat' split at h
  all_goals try simp_all
  all_goals repeat' split at h
  all_goals simp_all

/-- C5.  Idempotence: whenever the alive check reports the server alive and
healthy, `ensure_server_running` returns at once with zero launcher
invocations and zero poll-loop iterations and an unchanged world; hence a
second call in sequence again performs zero launch attempts. -/
theorem ensure_idempotent (s s1 : SMState) (L : LauncherSpec) (poll : Nat → Bool)
    (fuel : Nat) (h : is_server_alive s = .ok (true, s1)) :
    ensureServerRunning s L poll fuel = .ok ⟨s, 0, 0⟩ ∧
    ensureServerRunning s1 L poll fuel = .ok ⟨s1, 0, 0⟩ := by
  have hs : s1 = s := alive_true_state s s1 h
  subst hs
  constructor <;> simp [ensureServerRunning, h]

/-- A healthy world: lock file with a live pid, responsive health endpoint. -/
def healthyState : SMState :=
  ⟨some (some (.obj [("pid", .int 42), ("port", .int 3847)])),
   fun p => decide (p = 42), fun _ => true⟩

/-- Witness for C5. -/
theorem ensure_idempotent_witness :
    ensureServerRunning healthyState ⟨true, false, 0, "", ""⟩ (fun _ => true) 3 =
      .ok ⟨healthyState, 0, 0⟩ ∧
    ensureServerRunning healthyState ⟨true, false, 0, "", ""⟩ (fun _ => true) 3 =
      .ok ⟨healthyState, 0, 0⟩ :=
  ensure_idempotent healthyState healthyState ⟨true, false, 0, "", ""⟩
    (fun _ => true) 3 rfl

/-- C6.  Stale reclamation: a lock file that parses as a JSON object whose
recorded pid is a (nonzero) integer naming no running process makes
`is_server_alive` return false and delete the lock file, so a subsequent
observation finds no lock file. -/
theorem stale_reclamation (s : SMState) (kvs : List (String × Json)) (p : Int)
    (h1 : s.lock = some (some (.obj kvs)))
    (h2 : jsonLookup kvs "pid" = some (.int p)) (h3 : p ≠ 0)
    (h4 : s.procAlive p = false) :
    is_server_alive s = .ok (false, { s with lock := none }) ∧
    ({ s with lock := none }).lock = none := by
  refine ⟨?_, rfl⟩
  unfold is_server_alive
  rw [h1]
  simp [h2, pyTruthy, h3, pidToInt, h4]

/-- The spec §8 scenario world: lock file `{"pid": 999999999, "port": 3847}`
with no such process running. -/
def staleState : SMState :=
  ⟨some (some (.obj [("pid", .int 999999999), ("port", .int 3847)])),
   fun _ => false, fun _ => false⟩

/-- Witness for C6. -/
theorem stale_reclamation_witness :
    is_server_alive staleState = .ok (false, { staleState with lock := none }) ∧
    ({ staleState with lock := none }).lock = none :=
  stale_reclamation staleState [("pid", .int 999999999), ("port", .int 3847)]
    999999999 rfl rfl (by decide) rfl

/-- C7.  Malformed-state tolerance: an unreadable or JSON-unparsable lock
file, and a parsed lock object lacking the pid field, both make
`is_server_alive` return false without raising and without touching the
world. -/
theorem malformed_tolerance (s : SMState) :
    (s.lock = some none → is_server_alive s = .ok (false, s)) ∧
    (∀ kvs, s.lock = some (some (.obj kvs)) → jsonLookup kvs "pid" = none →
      is_server_alive s = .ok (false, s)) := by
  constructor
  · intro h
    unfold is_server_alive
    rw [h]
  · intro kvs h hpid
    unfold is_server_alive
    rw [h]
    simp [hpid, pyTruthy]

/-- A lock file that exists but cannot be read or JSON-parsed. -/
def malformedState : SMState := ⟨some none, fun _ => false, fun _ => false⟩

/-- A lock file parsing to an object without a pid field. -/
def noPidState : SMState :=
  ⟨some (some (.obj [("port", .int 3847)])), fun _ => false, fun _ => false⟩

/-- Witness for C7: both malformed shapes at concrete worlds. -/
theorem malformed_tolerance_witness :
    is_server_alive malformedState = .ok (false, malformedState) ∧
    is_server_alive noPidState = .ok (false, noPidState) :=
  ⟨(malformed_tolerance malformedState).1 rfl,
   (malformed_tolerance noPidState).2 [("port", .int 3847)] rfl rfl⟩

/-- A world with no lock file (and nothing running). -/
def noLockState : SMState := ⟨none, fun _ => false, fun _ => false⟩

/-- A launcher run that exits non-zero with text on both streams. -/
def cexLauncher : LauncherSpec := ⟨true, false, 1, "OUTTEXT", "ERRTEXT"⟩

/-- Counterexample to C8 as stated: with a launcher exiting non-zero with
stderr `"ERRTEXT"` and stdout `"OUTTEXT"`, the error surfaced by
`ensure_server_running` carries the stderr text but not the stdout text —
the code surfaces `result.stderr or result.stdout`, not both combined. -/
theorem launcher_failure_cex :
    ensureServerRunning noLockState cexLauncher (fun _ => true) 3 =
      .error "Failed to start server: Failed to start server: ERRTEXT" ∧
    pyIn cexLauncher.stderrText
      "Failed to start server: Failed to start server: ERRTEXT" = true ∧
    pyIn cexLauncher.stdoutText
      "Failed to start server: Failed to start server: ERRTEXT" = false :=
  ⟨rfl, by decide, by decide⟩

/-- C8 (amended).  Whenever the launcher exits non-zero (and the alive check
reported no healthy server), `ensure_server_running` fails with an error whose
message contains the launcher's captured stderr text when that is non-empty,
and otherwise its captured stdout text. -/
theorem launcher_failure_message (s s1 : SMState) (L : LauncherSpec)
    (poll : Nat → Bool) (fuel : Nat)
    (h0 : is_server_alive s = .ok (false, s1)) (h1 : L.found = true)
    (h2 : L.timedOut = false) (h3 : L.returncode ≠ 0) :
    ∃ msg, ensureServerRunning s L poll fuel = .error msg ∧
      (L.stderrText ≠ "" → pyIn L.stderrText msg = true) ∧
      (L.stderrText = "" → pyIn L.stdoutText msg = true) := by
  refine ⟨"Failed to start server: " ++ "Failed to start server: " ++
    (if L.stderrText ≠ "" then L.stderrText else L.stdoutText), ?_, ?_, ?_⟩
  · simp [ensureServerRunning, h0, startServerViaLauncher, h1, h2, h3]
  · intro he
    rw [if_pos he, pyIn_iff, strToList_append]
    exact (List.suffix_append _ _).isInfix
  · intro he
    rw [if_neg (by simp [he]), pyIn_iff, strToList_append]
    exact (List.suffix_append _ _).isInfix

/-- Witness for C8 (amended): the concrete failing launcher above, plus an
empty-stderr launcher falling back to stdout. -/
theorem launcher_failure_message_witness :
    (∃ msg, ensureServerRunning noLockState cexLauncher (fun _ => true) 3 =
        .error msg ∧
      (cexLauncher.stderrText ≠ "" → pyIn cexLauncher.stderrText msg = true) ∧
      (cexLauncher.stderrText = "" → pyIn cexLauncher.stdoutText msg = true)) ∧
    (∃ msg, ensureServerRunning noLockState ⟨true, false, 1, "OUTTEXT", ""⟩
          (fun _ => true) 3 = .error msg ∧
      ((⟨true, false, 1, "OUTTEXT", ""⟩ : LauncherSpec).stderrText ≠ "" →
        pyIn (⟨true, false, 1, "OUTTEXT", ""⟩ : LauncherSpec).stderrText msg = true) ∧
      ((⟨true, false, 1, "OUTTEXT", ""⟩ : LauncherSpec).stderrText = "" →
        pyIn (⟨true, false, 1, "OUTTEXT", ""⟩ : LauncherSpec).stdoutText msg = true)) :=
  ⟨launcher_failure_message noLockState noLockState cexLauncher (fun _ => true) 3
      rfl rfl rfl (by decide),
   launcher_failure_message noLockState noLockState ⟨true, false, 1, "OUTTEXT", ""⟩
      (fun _ => true) 3 rfl rfl rfl (by decide)⟩

/-- C9.  The two lock-file accessors return nothing, raise nothing, and leave
the world untouched whenever no lock file exists or it is malformed. -/
theorem accessors_absent (s : SMState)
    (h : s.lock = none ∨ s.lock = some none) :
    get_server_info s = (none, s) ∧ get_running_port s = (none, s) := by
  rcases h with h | h <;>
    exact ⟨by rw [get_server_info, h], by rw [get_running_port, h]⟩

/-- Witness for C9: no lock file, and an unparsable lock file. -/
theorem accessors_absent_witness :
    (get_server_info noLockState = (none, noLockState) ∧
      get_running_port noLockState = (none, noLockState)) ∧
    (get_server_info malformedState = (none, malformedState) ∧
      get_running_port malformedState = (none, malformedState)) :=
  ⟨accessors_absent noLockState (Or.inl rfl),
   accessors_absent malformedState (Or.inr rfl)⟩
